import Mathlib

/-!
Verification development for the wss-nodejs screenshot service
(`src/api/screenshot.js` and the second variant `src/unnamed/part_000`).

The pipeline is: Express routing → express-rate-limit middleware →
Joi schema validation → `takeScreenshot` (Playwright browser session) →
response encoding.  We embed each stage as a pure Lean function; the
external browser engine is abstracted by an oracle record `BrowserEnv`
describing whether each fallible stage succeeds and which image bytes a
successful capture yields.
-/

instance {ε α : Type} [DecidableEq ε] [DecidableEq α] : DecidableEq (Except ε α) := fun a b =>
  match a, b with
  | .ok x, .ok y =>
    if h : x = y then .isTrue (by rw [h]) else .isFalse (by intro c; injection c; exact h (by assumption))
  | .ok _, .error _ => .isFalse (by intro c; exact Except.noConfusion c)
  | .error _, .ok _ => .isFalse (by intro c; exact Except.noConfusion c)
  | .error x, .error y =>
    if h : x = y then .isTrue (by rw [h]) else .isFalse (by intro c; injection c; exact h (by assumption))

/-- Loosely-typed JSON-ish parameter value, as arriving from a query
string (always `str`) or a JSON body (`str`/`num`/`bool`). -/
inductive JsonValue where
  | str (s : String)
  | num (q : ℚ)
  | bool (b : Bool)
deriving DecidableEq, Repr

/-- Raw parameter bag: ordered association list of field name to value,
modelling `req.query` / `req.body`. -/
abbrev ParamBag := List (String × JsonValue)

/-- One entry of Joi's `error.details` list: the offending field and a
human-readable message. -/
structure FieldError where
  field : String
  message : String
deriving DecidableEq, Repr

/-- The validated request produced by `schema.validate` with defaults
applied (`value` in the handlers).  Field names follow the schema in
`src/api/screenshot.js` lines 26-33.  `width`/`height` are rationals
because `Joi.number()` (no `.integer()`) accepts fractional values. -/
structure ScreenshotRequest where
  url : String
  format : String
  width : ℚ
  height : ℚ
  full_page : Bool
  referer : Option String
deriving DecidableEq, Repr

/-- Configuration constant `MAX_DIMENSION` (line 10). -/
def MAX_DIMENSION : ℚ := 2000

/-- Configuration constant `DEFAULT_WIDTH` (line 11). -/
def DEFAULT_WIDTH : ℚ := 1280

/-- Configuration constant `DEFAULT_HEIGHT` (line 12). -/
def DEFAULT_HEIGHT : ℚ := 720

/-- Configuration constant `SUPPORTED_FORMATS` (line 13). -/
def SUPPORTED_FORMATS : List String := ["jpeg", "png"]

/-- First binding of a key in the parameter bag (JSON object field
lookup). -/
def lookupParam (bag : ParamBag) (k : String) : Option JsonValue :=
  (bag.find? (fun p => p.1 = k)).map (fun p => p.2)

/-- Digit run to a natural number; `none` on a non-digit. -/
def digitsToNat (cs : List Char) : Option Nat :=
  cs.foldl
    (fun acc c =>
      match acc with
      | none => none
      | some n => if c.isDigit then some (n * 10 + (c.toNat - 48)) else none)
    (some 0)

/-- Decimal-string to rational, the coercion `Joi.number()` applies to
string inputs (`convert: true`, Joi's default): optional sign, digits,
optional fractional part.  Non-numeric strings give `none`. -/
def parseRat (s : String) : Option ℚ :=
  let signed :=
    match s.toList with
    | '-' :: cs => (true, cs)
    | '+' :: cs => (false, cs)
    | cs => (false, cs)
  let neg := signed.1
  let body := signed.2
  let intPart := body.takeWhile Char.isDigit
  let rest := body.dropWhile Char.isDigit
  if intPart.isEmpty then none
  else
    match digitsToNat intPart with
    | none => none
    | some i =>
      match rest with
      | [] => some (if neg then -(i : ℚ) else (i : ℚ))
      | '.' :: fracPart =>
        if fracPart.isEmpty then none
        else
          match digitsToNat fracPart with
          | none => none
          | some f =>
            let k := fracPart.length
            let q : ℚ := (i : ℚ) + (f : ℚ) / ((10 : ℚ) ^ k)
            some (if neg then -q else q)
      | _ => none

/-- Character allowed in a URI scheme after the leading letter. -/
def isSchemeChar (c : Char) : Bool :=
  c.isAlphanum || c = '+' || c = '-' || c = '.'

/-- Absolute-URI test backing `Joi.string().uri()`.  Joi's URI grammar
(RFC 3986) is part of the black-box validation engine; we model its
observable contract on this schema: the string is an absolute URI, i.e.
a letter-led scheme, a colon, and a non-empty remainder. -/
def isValidUri (s : String) : Bool :=
  match s.toList with
  | [] => false
  | c :: cs =>
    c.isAlpha &&
    (match cs.dropWhile isSchemeChar with
     | ':' :: r => !r.isEmpty
     | _ => false)

/-- String coercion of `Joi.string()`: only string inputs are strings,
and the empty string is rejected (Joi forbids `''` unless
`.allow('')`). -/
def coerceString (v : JsonValue) : Option String :=
  match v with
  | .str s => if s = "" then none else some s
  | _ => none

/-- Number coercion of `Joi.number()` under Joi's default
`convert: true`: numbers pass through, numeric strings are parsed,
everything else fails. -/
def coerceNum (v : JsonValue) : Option ℚ :=
  match v with
  | .num q => some q
  | .str s => parseRat s
  | .bool _ => none

/-- Boolean coercion of `Joi.boolean()` under `convert: true`:
booleans pass through, the strings "true"/"false" are coerced. -/
def coerceBool (v : JsonValue) : Option Bool :=
  match v with
  | .bool b => some b
  | .str s => if s = "true" then some true else if s = "false" then some false else none
  | .num _ => none

/-- Rule `url: Joi.string().uri().required()` (schema line 27). -/
def checkUrl (bag : ParamBag) : Except FieldError String :=
  match lookupParam bag "url" with
  | none => .error ⟨"url", "\"url\" is required"⟩
  | some v =>
    match coerceString v with
    | none => .error ⟨"url", "\"url\" must be a string"⟩
    | some s => if isValidUri s then .ok s else .error ⟨"url", "\"url\" must be a valid uri"⟩

/-- Rule `format: Joi.string().valid(...SUPPORTED_FORMATS).default('jpeg')`
(schema line 28). -/
def checkFormat (bag : ParamBag) : Except FieldError String :=
  match lookupParam bag "format" with
  | none => .ok "jpeg"
  | some v =>
    match coerceString v with
    | none => .error ⟨"format", "\"format\" must be a string"⟩
    | some s =>
      if SUPPORTED_FORMATS.contains s then .ok s
      else .error ⟨"format", "\"format\" must be one of [jpeg, png]"⟩

/-- Rule `Joi.number().min(100).max(MAX_DIMENSION).default(d)` shared by
`width` (line 29) and `height` (line 30).  Note the source has no
`.integer()`: any rational in range is accepted. -/
def checkDim (bag : ParamBag) (name : String) (d : ℚ) : Except FieldError ℚ :=
  match lookupParam bag name with
  | none => .ok d
  | some v =>
    match coerceNum v with
    | none => .error ⟨name, "\"" ++ name ++ "\" must be a number"⟩
    | some q =>
      if q < 100 then .error ⟨name, "\"" ++ name ++ "\" must be greater than or equal to 100"⟩
      else if MAX_DIMENSION < q then .error ⟨name, "\"" ++ name ++ "\" must be less than or equal to 2000"⟩
      else .ok q

/-- Rule `full_page: Joi.boolean().default(false)` (schema line 31). -/
def checkFullPage (bag : ParamBag) : Except FieldError Bool :=
  match lookupParam bag "full_page" with
  | none => .ok false
  | some v =>
    match coerceBool v with
    | none => .error ⟨"full_page", "\"full_page\" must be a boolean"⟩
    | some b => .ok b

/-- Rule `referer: Joi.string().uri().optional()` (schema line 32). -/
def checkReferer (bag : ParamBag) : Except FieldError (Option String) :=
  match lookupParam bag "referer" with
  | none => .ok none
  | some v =>
    match coerceString v with
    | none => .error ⟨"referer", "\"referer\" must be a string"⟩
    | some s => if isValidUri s then .ok (some s) else .error ⟨"referer", "\"referer\" must be a valid uri"⟩

/-- The keys named by the Joi schema (lines 26-33). -/
def schemaKeys : List String := ["url", "format", "width", "height", "full_page", "referer"]

/-- Keys of the bag not named in the schema.  Joi's default
`allowUnknown: false` makes each such key an `object.unknown` error. -/
def unknownKeys (bag : ParamBag) : List String :=
  (bag.map (fun p => p.1)).filter (fun k => !(schemaKeys.contains k))

/-- Embedding of `schema.validate(bag)` as called in the handlers — no
options object, so Joi's defaults apply: `convert: true`,
`allowUnknown: false`, and `abortEarly: true` (stop at the first error;
`error.details` carries that single entry).  Keys are processed in
schema order, then unknown keys are rejected. -/
def validate (bag : ParamBag) : Except (List FieldError) ScreenshotRequest :=
  match checkUrl bag with
  | .error e => .error [e]
  | .ok url =>
    match checkFormat bag with
    | .error e => .error [e]
    | .ok format =>
      match checkDim bag "width" DEFAULT_WIDTH with
      | .error e => .error [e]
      | .ok width =>
        match checkDim bag "height" DEFAULT_HEIGHT with
        | .error e => .error [e]
        | .ok height =>
          match checkFullPage bag with
          | .error e => .error [e]
          | .ok fp =>
            match checkReferer bag with
            | .error e => .error [e]
            | .ok ref =>
              match unknownKeys bag with
              | [] => .ok ⟨url, format, width, height, fp, ref⟩
              | k :: _ => .error [⟨k, "\"" ++ k ++ "\" is not allowed"⟩]

/-- The rational 150.5 = 301/2, written through the `Rat` constructor so
that the kernel can evaluate comparisons on it. -/
def oneFiftyPointFive : ℚ := ⟨301, 2, by decide, by decide⟩

/-! ## Browser session manager (`takeScreenshot`) -/

/-- Oracle describing the external Playwright browser engine for one
request: whether `chromium.launch`, `page.goto` and `page.screenshot`
succeed, and the byte buffer a successful capture returns.  The engine
is an external collaborator; only these outcomes are observable to the
pipeline. -/
structure BrowserEnv where
  launchOk : Bool
  gotoOk : Bool
  captureOk : Bool
  imageBytes : List Nat
deriving DecidableEq, Repr

/-- Body of a pipeline result: the base64 text of a captured buffer, a
JSON error object, a Joi `error.details` list, or nothing. -/
inductive RespBody where
  | b64 (s : String)
  | errJson (msg : String)
  | valErr (es : List FieldError)
  | empty
deriving DecidableEq, Repr

/-- The object `takeScreenshot` returns (its `status`/`headers`/`body`/
`isBase64Encoded` fields; the catch-branch result carries no headers and
no base64 flag, modelled as `[]`/`false`). -/
structure ShotResult where
  status : Nat
  headers : List (String × String)
  body : RespBody
  isBase64Encoded : Bool
deriving DecidableEq, Repr

/-- Observable outcome of one `takeScreenshot` call: the returned
result plus the session-lifecycle facts needed for the resource-safety
and header claims — whether a browser process was launched, whether it
was closed by the `finally` block, and the `Referer` value passed to
`setExtraHTTPHeaders` (None when headers were never set). -/
structure ShotOutcome where
  result : ShotResult
  browserLaunched : Bool
  browserClosed : Bool
  refererHeader : Option String
deriving DecidableEq, Repr

/-- Base64 alphabet. -/
def b64Chars : List Char :=
  "ABCDEFGHIJKLMNOPQRSTUVWXYZabcdefghijklmnopqrstuvwxyz0123456789+/".toList

/-- Base64 digit for a 6-bit value. -/
def b64Char (n : Nat) : Char := b64Chars.getD n 'A'

/-- Standard base64 of a byte list, the effect of
`buffer.toString('base64')`. -/
def base64Chunks : List Nat → List Char
  | [] => []
  | [a] =>
    [b64Char (a / 4), b64Char (a % 4 * 16), '=', '=']
  | [a, b] =>
    [b64Char (a / 4), b64Char (a % 4 * 16 + b / 16), b64Char (b % 16 * 4), '=']
  | a :: b :: c :: rest =>
    b64Char (a / 4) :: b64Char (a % 4 * 16 + b / 16) ::
      b64Char (b % 16 * 4 + c / 64) :: b64Char (c % 64) :: base64Chunks rest

/-- String form of `base64Chunks`. -/
def base64Encode (bytes : List Nat) : String := String.mk (base64Chunks bytes)

/-- Byte sequence a string occupies on the wire when sent by
`res.send` (base64 text is pure ASCII, one byte per character). -/
def asciiBytes (s : String) : List Nat := s.toList.map Char.toNat

/-- JavaScript truthiness fallback `params.referer || params.url`
(line 58): an absent or empty referer falls back to the url. -/
def effectiveReferer (params : ScreenshotRequest) : String :=
  match params.referer with
  | none => params.url
  | some r => if r = "" then params.url else r

namespace Api

/-- Embedding of `takeScreenshot` from `src/api/screenshot.js` lines
36-94.  Control flow of the JS `try`/`catch`/`finally`: `browser`
starts `null`; a launch failure leaves it `null`, so `finally` closes
nothing; after a successful launch every path — navigation failure,
capture failure, or success — runs `await browser.close()`.  Success
returns status 200 with `Content-Type: image/<format>`,
`Cache-Control: public, max-age=300` and the base64 text of the
captured buffer; any caught error returns a 500 JSON body. -/
def takeScreenshot (env : BrowserEnv) (params : ScreenshotRequest) : ShotOutcome :=
  if env.launchOk then
    let referer := effectiveReferer params
    if env.gotoOk then
      if env.captureOk then
        { result :=
            { status := 200,
              headers :=
                [("Content-Type", "image/" ++ params.format),
                 ("Cache-Control", "public, max-age=300")],
              body := .b64 (base64Encode env.imageBytes),
              isBase64Encoded := true },
          browserLaunched := true,
          browserClosed := true,
          refererHeader := some referer }
      else
        { result := { status := 500, headers := [], body := .errJson "截图失败: capture error", isBase64Encoded := false },
          browserLaunched := true, browserClosed := true, refererHeader := some referer }
    else
      { result := { status := 500, headers := [], body := .errJson "截图失败: navigation error", isBase64Encoded := false },
        browserLaunched := true, browserClosed := true, refererHeader := some referer }
  else
    { result := { status := 500, headers := [], body := .errJson "截图失败: launch error", isBase64Encoded := false },
      browserLaunched := false, browserClosed := false, refererHeader := none }

/-- HTTP response the Express handler produces:
`res.status(...).set(...).send(...)`. -/
structure Response where
  status : Nat
  headers : List (String × String)
  body : RespBody
deriving DecidableEq, Repr

/-- Outcome of one route handler: the response plus whether
`takeScreenshot` was invoked (i.e. whether a browser resource was
allocated for the request). -/
structure HandlerOutcome where
  resp : Response
  shotCalled : Bool
deriving DecidableEq, Repr

/-- Handler `app.post('/api/screenshot')` (lines 100-112): validate the
body; on error respond 400 with `error.details`; otherwise run
`takeScreenshot` and forward its status/headers/body. -/
def handlePost (env : BrowserEnv) (bag : ParamBag) : HandlerOutcome :=
  match validate bag with
  | .error es => { resp := { status := 400, headers := [], body := .valErr es }, shotCalled := false }
  | .ok value =>
    let r := takeScreenshot env value
    { resp := { status := r.result.status, headers := r.result.headers, body := r.result.body },
      shotCalled := true }

/-- Handler `app.get('/api/screenshot')` (lines 114-126): identical to
the POST handler except the bag comes from `req.query`. -/
def handleGet (env : BrowserEnv) (bag : ParamBag) : HandlerOutcome :=
  match validate bag with
  | .error es => { resp := { status := 400, headers := [], body := .valErr es }, shotCalled := false }
  | .ok value =>
    let r := takeScreenshot env value
    { resp := { status := r.result.status, headers := r.result.headers, body := r.result.body },
      shotCalled := true }

end Api

namespace Part000

/-- Embedding of `takeScreenshot` from `src/unnamed/part_000` lines
35-88 — identical to the `Api` variant except for the cache policy
string `public, max-age=86400, s-maxage=3600` (line 74). -/
def takeScreenshot (env : BrowserEnv) (params : ScreenshotRequest) : ShotOutcome :=
  if env.launchOk then
    let referer := effectiveReferer params
    if env.gotoOk then
      if env.captureOk then
        { result :=
            { status := 200,
              headers :=
                [("Content-Type", "image/" ++ params.format),
                 ("Cache-Control", "public, max-age=86400, s-maxage=3600")],
              body := .b64 (base64Encode env.imageBytes),
              isBase64Encoded := true },
          browserLaunched := true,
          browserClosed := true,
          refererHeader := some referer }
      else
        { result := { status := 500, headers := [], body := .errJson "截图失败: capture error", isBase64Encoded := false },
          browserLaunched := true, browserClosed := true, refererHeader := some referer }
    else
      { result := { status := 500, headers := [], body := .errJson "截图失败: navigation error", isBase64Encoded := false },
        browserLaunched := true, browserClosed := true, refererHeader := some referer }
  else
    { result := { status := 500, headers := [], body := .errJson "截图失败: launch error", isBase64Encoded := false },
      browserLaunched := false, browserClosed := false, refererHeader := none }

/-- Handler `app.get('/')` (part_000 lines 95-107): validate the query
string, 400 on error, else run `takeScreenshot` and forward the
result. -/
def handleGet (env : BrowserEnv) (bag : ParamBag) : Api.HandlerOutcome :=
  match validate bag with
  | .error es => { resp := { status := 400, headers := [], body := .valErr es }, shotCalled := false }
  | .ok value =>
    let r := takeScreenshot env value
    { resp := { status := r.result.status, headers := r.result.headers, body := r.result.body },
      shotCalled := true }

/-- Handler `app.post('/')` (part_000 lines 109-121): identical to the
GET handler except the bag comes from `req.body`. -/
def handlePost (env : BrowserEnv) (bag : ParamBag) : Api.HandlerOutcome :=
  match validate bag with
  | .error es => { resp := { status := 400, headers := [], body := .valErr es }, shotCalled := false }
  | .ok value =>
    let r := takeScreenshot env value
    { resp := { status := r.result.status, headers := r.result.headers, body := r.result.body },
      shotCalled := true }

end Part000

/-! ## Rate limiter and app composition -/

/-- HTTP method of an inbound request. -/
inductive Method where
  | get
  | post
deriving DecidableEq, Repr

/-- One inbound HTTP request: method, path, rate-limit client key
(e.g. IP), arrival time in milliseconds, and raw parameter bag
(query string for GET, JSON body for POST). -/
structure HttpRequest where
  method : Method
  path : String
  key : String
  time : Nat
  bag : ParamBag
deriving DecidableEq, Repr

/-- Per-client hit counters of the limiter's memory store. -/
structure LimiterState where
  windowEnd : Nat
  hits : List (String × Nat)
deriving DecidableEq, Repr

/-- Hit count recorded for a client key (0 when absent). -/
def lookupHits (hits : List (String × Nat)) (k : String) : Nat :=
  (((hits.find? (fun p => p.1 = k)).map (fun p => p.2)).getD 0)

/-- Store a client key's hit count. -/
def setHits : List (String × Nat) → String → Nat → List (String × Nat)
  | [], k, n => [(k, n)]
  | (k', n') :: rest, k, n =>
    if k' = k then (k, n) :: rest else (k', n') :: setHits rest k n

/-- Modelled from the spec: the internals of the `express-rate-limit`
middleware are library code not present under `src/`; the source only
configures it (`rateLimit` with `windowMs: 60 * 1000`, `max: 30` and a
429 handler, lines 17-23, mounted ahead of all routes by
`app.use(limiter)`).  Spec §4.2 fixes the contract: at most 30 requests
per client key within a fixed 60 s window, counters reset when the
window elapses, excess requests short-circuited with 429.  One step
processes a request at `time`: reset the store if the window elapsed,
increment the client's count, and admit iff the count stays ≤ 30. -/
def limiterStep (st : LimiterState) (key : String) (time : Nat) : LimiterState × Bool :=
  let st' :=
    if st.windowEnd ≤ time then { windowEnd := time + 60000, hits := [] } else st
  let c := lookupHits st'.hits key + 1
  ({ windowEnd := st'.windowEnd, hits := setHits st'.hits key c }, decide (c ≤ 30))

/-- Response of the limiter's 429 handler (lines 20-22): JSON error,
no browser work. -/
def rateLimited : Api.HandlerOutcome :=
  { resp := { status := 429, headers := [], body := .errJson "请求过于频繁，请稍后再试" },
    shotCalled := false }

/-- Express's default reply for an unmatched route. -/
def notFound : Api.HandlerOutcome :=
  { resp := { status := 404, headers := [], body := .empty }, shotCalled := false }

/-- App of `src/api/screenshot.js`: `app.use(limiter)` (line 98) runs
before routing, then `POST /api/screenshot` and `GET /api/screenshot`
are the only routes (lines 100-126). -/
def Api.app (env : BrowserEnv) (st : LimiterState) (rq : HttpRequest) :
    LimiterState × Api.HandlerOutcome :=
  let step := limiterStep st rq.key rq.time
  if step.2 then
    match rq.method, rq.path with
    | .post, "/api/screenshot" => (step.1, Api.handlePost env rq.bag)
    | .get, "/api/screenshot" => (step.1, Api.handleGet env rq.bag)
    | _, _ => (step.1, notFound)
  else (step.1, rateLimited)

/-- App of `src/unnamed/part_000`: `app.use(limiter)` (line 92) runs
before routing, then `GET /` and `POST /` are the only routes (lines
95-121) — both are screenshot handlers; no other path is routed. -/
def Part000.app (env : BrowserEnv) (st : LimiterState) (rq : HttpRequest) :
    LimiterState × Api.HandlerOutcome :=
  let step := limiterStep st rq.key rq.time
  if step.2 then
    match rq.method, rq.path with
    | .get, "/" => (step.1, Part000.handleGet env rq.bag)
    | .post, "/" => (step.1, Part000.handlePost env rq.bag)
    | _, _ => (step.1, notFound)
  else (step.1, rateLimited)

/-- Browser-engine oracle where every stage succeeds and the capture
returns an empty buffer. -/
def envAllOk : BrowserEnv := ⟨true, true, true, []⟩

/-- A representative validated request (all defaults, example url). -/
def reqDefault : ScreenshotRequest :=
  ⟨"http://example.com/", "jpeg", 1280, 720, false, none⟩

/-! ## Lemmas about the validator -/

/-- A successful `schema.validate` determines each component of the
produced request by the corresponding rule, and leaves no unknown
keys. -/
theorem validate_ok_parts (bag : ParamBag) (p : ScreenshotRequest)
    (h : validate bag = .ok p) :
    checkUrl bag = .ok p.url ∧ checkFormat bag = .ok p.format ∧
    checkDim bag "width" DEFAULT_WIDTH = .ok p.width ∧
    checkDim bag "height" DEFAULT_HEIGHT = .ok p.height ∧
    checkFullPage bag = .ok p.full_page ∧
    checkReferer bag = .ok p.referer ∧
    unknownKeys bag = [] := by
  unfold validate at h
  cases h1 : checkUrl bag with
  | error e => simp [h1] at h
  | ok u =>
  simp only [h1] at h
  cases h2 : checkFormat bag with
  | error e => simp [h2] at h
  | ok f =>
  simp only [h2] at h
  cases h3 : checkDim bag "width" DEFAULT_WIDTH with
  | error e => simp [h3] at h
  | ok w =>
  simp only [h3] at h
  cases h4 : checkDim bag "height" DEFAULT_HEIGHT with
  | error e => simp [h4] at h
  | ok ht =>
  simp only [h4] at h
  cases h5 : checkFullPage bag with
  | error e => simp [h5] at h
  | ok fp =>
  simp only [h5] at h
  cases h6 : checkReferer bag with
  | error e => simp [h6] at h
  | ok rf =>
  simp only [h6] at h
  cases h7 : unknownKeys bag with
  | cons k ks => simp [h7] at h
  | nil =>
  simp only [h7] at h
  injection h with h
  subst h
  exact ⟨rfl, rfl, rfl, rfl, rfl, rfl, rfl⟩

/-- A validated string field came from a non-empty string input. -/
theorem coerceString_ne_empty (v : JsonValue) (s : String)
    (h : coerceString v = some s) : s ≠ "" := by
  unfold coerceString at h
  cases v <;> simp at h
  obtain ⟨h1, h2⟩ := h
  subst h2
  exact h1

/-- A referer accepted by its rule is a non-empty string. -/
theorem checkReferer_some_ne_empty (bag : ParamBag) (r : String)
    (h : checkReferer bag = .ok (some r)) : r ≠ "" := by
  unfold checkReferer at h
  cases hl : lookupParam bag "referer" with
  | none => simp [hl] at h
  | some v =>
  simp only [hl] at h
  cases hc : coerceString v with
  | none => simp [hc] at h
  | some s =>
  simp only [hc] at h
  split at h
  · injection h with h
    injection h with h
    exact h ▸ coerceString_ne_empty v s hc
  · simp at h

/-- A format accepted by its rule is one of the supported two. -/
theorem checkFormat_ok_mem (bag : ParamBag) (f : String)
    (h : checkFormat bag = .ok f) : f = "jpeg" ∨ f = "png" := by
  unfold checkFormat at h
  cases hl : lookupParam bag "format" with
  | none =>
    simp only [hl] at h
    injection h with h
    exact .inl h.symm
  | some v =>
  simp only [hl] at h
  cases hc : coerceString v with
  | none => simp [hc] at h
  | some s =>
  simp only [hc] at h
  split at h
  · rename_i hmem
    injection h with h
    subst h
    simpa [SUPPORTED_FORMATS] using hmem
  · simp at h

/-- Dimension inputs that `Joi.number().min(100).max(2000)` rejects:
values not coercible to a number, or outside [100, 2000]. -/
def badDim (v : JsonValue) : Bool :=
  match coerceNum v with
  | none => true
  | some q => decide (q < 100) || decide (MAX_DIMENSION < q)

/-- A present width/height whose value is rejected by the number rule
makes the corresponding check fail. -/
theorem checkDim_error_of_badDim (bag : ParamBag) (name : String) (d : ℚ) (v : JsonValue)
    (hl : lookupParam bag name = some v) (hb : badDim v = true) :
    ∃ e, checkDim bag name d = .error e := by
  unfold badDim at hb
  cases hc : coerceNum v with
  | none =>
    exact ⟨⟨name, "\"" ++ name ++ "\" must be a number"⟩, by simp [checkDim, hl, hc]⟩
  | some q =>
    simp only [hc] at hb
    by_cases hq1 : q < 100
    · exact ⟨⟨name, "\"" ++ name ++ "\" must be greater than or equal to 100"⟩,
        by simp [checkDim, hl, hc, hq1]⟩
    · have h2 : MAX_DIMENSION < q := by
        rcases (Bool.or_eq_true _ _).mp hb with h | h
        · exact absurd (of_decide_eq_true h) hq1
        · exact of_decide_eq_true h
      exact ⟨⟨name, "\"" ++ name ++ "\" must be less than or equal to 2000"⟩,
        by simp [checkDim, hl, hc, hq1, h2]⟩

/-- Any width/height rule failure makes the whole validation fail:
under `abortEarly` the first error occurs no later than the offending
dimension. -/
theorem validate_error_of_badDim (bag : ParamBag) (v : JsonValue)
    (h : lookupParam bag "width" = some v ∨ lookupParam bag "height" = some v)
    (hb : badDim v = true) : ∃ es, validate bag = .error es := by
  unfold validate
  cases h1 : checkUrl bag with
  | error e => exact ⟨[e], rfl⟩
  | ok u =>
  cases h2 : checkFormat bag with
  | error e => exact ⟨[e], rfl⟩
  | ok f =>
  cases h3 : checkDim bag "width" DEFAULT_WIDTH with
  | error e => exact ⟨[e], rfl⟩
  | ok w =>
  cases h4 : checkDim bag "height" DEFAULT_HEIGHT with
  | error e => exact ⟨[e], rfl⟩
  | ok ht =>
  exfalso
  rcases h with hl | hl
  · obtain ⟨e, he⟩ := checkDim_error_of_badDim bag "width" DEFAULT_WIDTH v hl hb
    rw [he] at h3
    exact absurd h3 (by simp)
  · obtain ⟨e, he⟩ := checkDim_error_of_badDim bag "height" DEFAULT_HEIGHT v hl hb
    rw [he] at h4
    exact absurd h4 (by simp)

/-- A bag holding any key outside the schema fails validation
(`allowUnknown` defaults to `false`). -/
theorem validate_error_of_unknownKey (bag : ParamBag) (k : String) (v : JsonValue)
    (hkv : (k, v) ∈ bag) (hs : schemaKeys.contains k = false) :
    ∃ es, validate bag = .error es := by
  unfold validate
  cases h1 : checkUrl bag with
  | error e => exact ⟨[e], rfl⟩
  | ok u =>
  cases h2 : checkFormat bag with
  | error e => exact ⟨[e], rfl⟩
  | ok f =>
  cases h3 : checkDim bag "width" DEFAULT_WIDTH with
  | error e => exact ⟨[e], rfl⟩
  | ok w =>
  cases h4 : checkDim bag "height" DEFAULT_HEIGHT with
  | error e => exact ⟨[e], rfl⟩
  | ok ht =>
  cases h5 : checkFullPage bag with
  | error e => exact ⟨[e], rfl⟩
  | ok fp =>
  cases h6 : checkReferer bag with
  | error e => exact ⟨[e], rfl⟩
  | ok rf =>
  cases h7 : unknownKeys bag with
  | cons k0 ks => exact ⟨[⟨k0, "\"" ++ k0 ++ "\" is not allowed"⟩], rfl⟩
  | nil =>
  exfalso
  have hmem : k ∈ unknownKeys bag := by
    refine List.mem_filter.mpr ⟨?_, by simp at hs ⊢; exact hs⟩
    exact List.mem_map.mpr ⟨(k, v), hkv, rfl⟩
  rw [h7] at hmem
  exact absurd hmem (List.not_mem_nil k)

/-- Hit count recorded for a key after storing that key. -/
theorem lookupHits_setHits (hits : List (String × Nat)) (k : String) (c : Nat) :
    lookupHits (setHits hits k c) k = c := by
  induction hits with
  | nil => simp [setHits, lookupHits]
  | cons p rest ih =>
    obtain ⟨k', n'⟩ := p
    by_cases hk : k' = k
    · simp [setHits, hk, lookupHits]
    · simpa [setHits, hk, lookupHits, List.find?] using ih

/-! ## Claim theorems -/

/-- Claim C1: whichever stage of the screenshot pipeline fails (launch,
navigation, capture) or none does, a browser process that was launched
is closed by the `finally` block before `takeScreenshot` returns, in
both source variants: no browser process outlives its request. -/
theorem c1_browser_closed_on_all_paths (env : BrowserEnv) (p : ScreenshotRequest) :
    ((Api.takeScreenshot env p).browserLaunched = true →
      (Api.takeScreenshot env p).browserClosed = true) ∧
    ((Part000.takeScreenshot env p).browserLaunched = true →
      (Part000.takeScreenshot env p).browserClosed = true) := by
  obtain ⟨l, g, c, bytes⟩ := env
  cases l <;> cases g <;> cases c <;>
    simp [Api.takeScreenshot, Part000.takeScreenshot]

/-- Witness for C1: a concrete run whose navigation stage fails still
ends with the browser closed. -/
theorem c1_witness :
    (Api.takeScreenshot ⟨true, false, true, []⟩ reqDefault).browserLaunched = true ∧
    (Api.takeScreenshot ⟨true, false, true, []⟩ reqDefault).browserClosed = true :=
  ⟨by decide, (c1_browser_closed_on_all_paths ⟨true, false, true, []⟩ reqDefault).1 (by decide)⟩

/-- Bag of the C2 counterexample: a valid url plus the non-integer
width 150.5. -/
def c2bag : ParamBag := [("url", .str "http://example.com/"), ("width", .num oneFiftyPointFive)]

/-- Claim C2 counterexample: width 150.5 is present and is not an
integer in [100, 2000] (its denominator is 2), yet validation succeeds,
`takeScreenshot` runs and the response status is 200, not 400 — the
schema uses `Joi.number()` without `.integer()`, so fractional values
pass. -/
theorem c2_counterexample :
    oneFiftyPointFive.den = 2 ∧
    validate c2bag = .ok ⟨"http://example.com/", "jpeg", oneFiftyPointFive, 720, false, none⟩ ∧
    (Api.handlePost envAllOk c2bag).resp.status = 200 ∧
    (Api.handlePost envAllOk c2bag).shotCalled = true := by decide

/-- Claim C2 (amended): a present `width` or `height` whose value the
number rule rejects — not coercible to a number, or outside
[100, 2000] — always fails validation: both handlers respond 400 and
never invoke `takeScreenshot`. -/
theorem c2_amended_dim_out_of_range_rejected (env : BrowserEnv) (bag : ParamBag) (v : JsonValue)
    (h : lookupParam bag "width" = some v ∨ lookupParam bag "height" = some v)
    (hb : badDim v = true) :
    (Api.handlePost env bag).resp.status = 400 ∧ (Api.handlePost env bag).shotCalled = false ∧
    (Api.handleGet env bag).resp.status = 400 ∧ (Api.handleGet env bag).shotCalled = false := by
  obtain ⟨es, hes⟩ := validate_error_of_badDim bag v h hb
  refine ⟨?_, ?_, ?_, ?_⟩ <;> simp [Api.handlePost, Api.handleGet, hes]

/-- Witness for C2 (amended) at the out-of-range width 5000. -/
theorem c2_witness :
    (Api.handlePost envAllOk [("width", JsonValue.num 5000)]).resp.status = 400 :=
  (c2_amended_dim_out_of_range_rejected envAllOk [("width", JsonValue.num 5000)]
    (.num 5000) (Or.inl (by decide)) (by decide)).1

/-- Bag of the C3 counterexample: `url` missing and `width` above the
maximum — two violated rules. -/
def c3bag : ParamBag := [("width", .num 5000)]

/-- Claim C3 counterexample: `c3bag` violates both the `url` rule and
the `width` rule, but the validation failure carries exactly one
`error.details` entry (the first violation), and no entry mentions
`width` — Joi's default `abortEarly: true` stops at the first error. -/
theorem c3_counterexample :
    validate c3bag = .error [⟨"url", "\"url\" is required"⟩] ∧
    checkDim c3bag "width" DEFAULT_WIDTH =
      .error ⟨"width", "\"width\" must be less than or equal to 2000"⟩ ∧
    ([⟨"url", "\"url\" is required"⟩] : List FieldError).all
      (fun er => er.field != "width") = true := by decide

/-- Claim C3 (amended): under Joi's default `abortEarly: true` every
validation failure response lists exactly one violated rule — the
first encountered — never the full list. -/
theorem c3_amended_single_error_reported (bag : ParamBag) (es : List FieldError)
    (h : validate bag = .error es) : es.length = 1 := by
  unfold validate at h
  cases h1 : checkUrl bag with
  | error e => simp only [h1] at h; injection h with h; subst h; rfl
  | ok u =>
  simp only [h1] at h
  cases h2 : checkFormat bag with
  | error e => simp only [h2] at h; injection h with h; subst h; rfl
  | ok f =>
  simp only [h2] at h
  cases h3 : checkDim bag "width" DEFAULT_WIDTH with
  | error e => simp only [h3] at h; injection h with h; subst h; rfl
  | ok w =>
  simp only [h3] at h
  cases h4 : checkDim bag "height" DEFAULT_HEIGHT with
  | error e => simp only [h4] at h; injection h with h; subst h; rfl
  | ok ht =>
  simp only [h4] at h
  cases h5 : checkFullPage bag with
  | error e => simp only [h5] at h; injection h with h; subst h; rfl
  | ok fp =>
  simp only [h5] at h
  cases h6 : checkReferer bag with
  | error e => simp only [h6] at h; injection h with h; subst h; rfl
  | ok rf =>
  simp only [h6] at h
  cases h7 : unknownKeys bag with
  | cons k0 ks => simp only [h7] at h; injection h with h; subst h; rfl
  | nil => simp only [h7] at h; simp at h

/-- Witness for C3 (amended): the concrete failure for the empty bag
lists exactly one entry. -/
theorem c3_witness : ([⟨"url", "\"url\" is required"⟩] : List FieldError).length = 1 :=
  c3_amended_single_error_reported [] [⟨"url", "\"url\" is required"⟩] (by decide)

/-- Bag of the C4 counterexample: a valid `url` plus the unknown field
`foo`. -/
def c4bag : ParamBag := [("url", .str "http://example.com/"), ("foo", .str "bar")]

/-- Claim C4 counterexample: with only the known field `url` the bag
validates, but adding the unknown field `foo` makes validation fail
with an `is not allowed` error instead of ignoring it — Joi's
`allowUnknown` defaults to `false`. -/
theorem c4_counterexample :
    validate [("url", .str "http://example.com/")] =
      .ok ⟨"http://example.com/", "jpeg", 1280, 720, false, none⟩ ∧
    validate c4bag = .error [⟨"foo", "\"foo\" is not allowed"⟩] := by decide

/-- Claim C4 (amended): a bag containing any field not named in the
schema fails validation — unknown fields are rejected, not ignored —
so the response is 400 and `takeScreenshot` is not called.  (Which
single error is reported depends on `abortEarly`: an earlier schema
rule's violation takes precedence over the unknown key's
`is not allowed` entry.) -/
theorem c4_amended_unknown_key_rejected (env : BrowserEnv) (bag : ParamBag)
    (k : String) (v : JsonValue)
    (hkv : (k, v) ∈ bag) (hs : schemaKeys.contains k = false) :
    ∃ es, validate bag = .error es ∧
      (Api.handlePost env bag).resp.status = 400 ∧
      (Api.handlePost env bag).shotCalled = false := by
  obtain ⟨es, hes⟩ := validate_error_of_unknownKey bag k v hkv hs
  exact ⟨es, hes, by simp [Api.handlePost, hes], by simp [Api.handlePost, hes]⟩

/-- Witness for C4 (amended) at the concrete bag with unknown key
`foo`. -/
theorem c4_witness :
    ∃ es, validate c4bag = .error es ∧
      (Api.handlePost envAllOk c4bag).resp.status = 400 ∧
      (Api.handlePost envAllOk c4bag).shotCalled = false :=
  c4_amended_unknown_key_rejected envAllOk c4bag "foo" (.str "bar") (by decide) (by decide)

/-- Bag holding just a valid url; validates to `reqDefault`. -/
def urlBag : ParamBag := [("url", .str "http://example.com/")]

/-- Claim C5: once a client key has 30 hits recorded inside the current
window, that client's next request inside the window is rejected with
429 and no browser resource is allocated (`takeScreenshot` not called);
the same request arriving after the window elapses is admitted and the
pipeline runs. -/
theorem c5_rate_limit (env : BrowserEnv) (st : LimiterState) (k : String)
    (t t2 : Nat) (bag : ParamBag) (p : ScreenshotRequest)
    (hcount : lookupHits st.hits k = 30)
    (hwin : t < st.windowEnd)
    (hlater : st.windowEnd ≤ t2)
    (hval : validate bag = .ok p) :
    ((Api.app env st ⟨.post, "/api/screenshot", k, t, bag⟩).2.resp.status = 429 ∧
     (Api.app env st ⟨.post, "/api/screenshot", k, t, bag⟩).2.shotCalled = false) ∧
    ((Api.app env st ⟨.post, "/api/screenshot", k, t2, bag⟩).2.resp.status ≠ 429 ∧
     (Api.app env st ⟨.post, "/api/screenshot", k, t2, bag⟩).2.shotCalled = true) := by
  have hnot : ¬ st.windowEnd ≤ t := Nat.not_le.mpr hwin
  have hstep1 : limiterStep st k t = (⟨st.windowEnd, setHits st.hits k 31⟩, false) := by
    simp [limiterStep, hnot, hcount]
  have hstep2 : limiterStep st k t2 = (⟨t2 + 60000, setHits [] k 1⟩, true) := by
    simp [limiterStep, hlater, lookupHits]
  refine ⟨⟨?_, ?_⟩, ?_, ?_⟩
  · simp [Api.app, hstep1, rateLimited]
  · simp [Api.app, hstep1, rateLimited]
  · simp only [Api.app, hstep2]
    simp only [Api.handlePost, hval]
    obtain ⟨l, g, c, bytes⟩ := env
    cases l <;> cases g <;> cases c <;> simp [Api.takeScreenshot]
  · simp only [Api.app, hstep2]
    simp [Api.handlePost, hval]

/-- Witness for C5 at a concrete saturated limiter state. -/
theorem c5_witness :
    ((Api.app envAllOk ⟨60000, [("c", 30)]⟩
        ⟨.post, "/api/screenshot", "c", 0, urlBag⟩).2.resp.status = 429 ∧
     (Api.app envAllOk ⟨60000, [("c", 30)]⟩
        ⟨.post, "/api/screenshot", "c", 0, urlBag⟩).2.shotCalled = false) ∧
    ((Api.app envAllOk ⟨60000, [("c", 30)]⟩
        ⟨.post, "/api/screenshot", "c", 60000, urlBag⟩).2.resp.status ≠ 429 ∧
     (Api.app envAllOk ⟨60000, [("c", 30)]⟩
        ⟨.post, "/api/screenshot", "c", 60000, urlBag⟩).2.shotCalled = true) :=
  c5_rate_limit envAllOk ⟨60000, [("c", 30)]⟩ "c" 0 60000 urlBag reqDefault
    (by decide) (by decide) (by decide) (by decide)

/-- Claim C6: for every validated request that reaches navigation, the
`Referer` header handed to `setExtraHTTPHeaders` equals the request's
`referer` when provided and the request's `url` otherwise, in both
variants. -/
theorem c6_referer_header (env : BrowserEnv) (bag : ParamBag) (p : ScreenshotRequest)
    (hv : validate bag = .ok p) (hl : env.launchOk = true) :
    (Api.takeScreenshot env p).refererHeader = some (p.referer.getD p.url) ∧
    (Part000.takeScreenshot env p).refererHeader = some (p.referer.getD p.url) := by
  have href : checkReferer bag = .ok p.referer := (validate_ok_parts bag p hv).2.2.2.2.2.1
  have heff : effectiveReferer p = p.referer.getD p.url := by
    unfold effectiveReferer
    cases hr : p.referer with
    | none => rfl
    | some r =>
      have hne : r ≠ "" := checkReferer_some_ne_empty bag r (by rw [← hr]; exact href)
      simp [hne]
  obtain ⟨l, g, c, bytes⟩ := env
  cases l with
  | false => exact absurd hl (by simp)
  | true =>
    cases g <;> cases c <;> simp [Api.takeScreenshot, Part000.takeScreenshot, heff]

/-- Bag and request of the C6 witness: explicit referer. -/
def refBag : ParamBag :=
  [("url", .str "http://example.com/"), ("referer", .str "http://ref.example/")]

/-- Validated request of the C6 witness. -/
def refReq : ScreenshotRequest :=
  ⟨"http://example.com/", "jpeg", 1280, 720, false, some "http://ref.example/"⟩

/-- Witness for C6 at a concrete request carrying a referer. -/
theorem c6_witness :
    validate refBag = .ok refReq ∧
    (Api.takeScreenshot envAllOk refReq).refererHeader =
      some (refReq.referer.getD refReq.url) :=
  ⟨by decide, (c6_referer_header envAllOk refBag refReq (by decide) (by decide)).1⟩

/-- Claim C7: for every validated request on which every stage
succeeds, the success response declares status 200 and
`Content-Type: image/<format>` for the request's format, which is one
of jpeg/png, in both variants. -/
theorem c7_content_type_matches_format (env : BrowserEnv) (bag : ParamBag)
    (p : ScreenshotRequest) (hv : validate bag = .ok p)
    (hl : env.launchOk = true) (hg : env.gotoOk = true) (hc : env.captureOk = true) :
    (Api.takeScreenshot env p).result.status = 200 ∧
    (Api.takeScreenshot env p).result.headers.lookup "Content-Type" =
      some ("image/" ++ p.format) ∧
    (Part000.takeScreenshot env p).result.headers.lookup "Content-Type" =
      some ("image/" ++ p.format) ∧
    (p.format = "jpeg" ∨ p.format = "png") := by
  have hf := checkFormat_ok_mem bag p.format (validate_ok_parts bag p hv).2.1
  obtain ⟨l, g, c, bytes⟩ := env
  simp only at hl hg hc
  subst hl hg hc
  refine ⟨?_, ?_, ?_, hf⟩ <;>
    simp [Api.takeScreenshot, Part000.takeScreenshot, List.lookup]

/-- Witness for C7 at a concrete all-success run. -/
theorem c7_witness :
    (Api.takeScreenshot envAllOk reqDefault).result.status = 200 ∧
    (Api.takeScreenshot envAllOk reqDefault).result.headers.lookup "Content-Type" =
      some ("image/" ++ reqDefault.format) :=
  ⟨(c7_content_type_matches_format envAllOk urlBag reqDefault
      (by decide) (by decide) (by decide) (by decide)).1,
   (c7_content_type_matches_format envAllOk urlBag reqDefault
      (by decide) (by decide) (by decide) (by decide)).2.1⟩

/-- A limiter store with no recorded hits and an expired window. -/
def freshLimiter : LimiterState := ⟨0, []⟩

/-- Claim C8 counterexample: on a fresh limiter, `GET /health` returns
404 (no such route exists), and `GET /` — the only candidate liveness
path — is handled by the screenshot pipeline: with no parameters it
returns 400 from validation, not a 200 static readiness message, and
the request is counted by the rate limiter (hit count becomes 1). -/
theorem c8_counterexample :
    (Part000.app envAllOk freshLimiter ⟨.get, "/health", "client", 5, []⟩).2.resp.status = 404 ∧
    (Part000.app envAllOk freshLimiter ⟨.get, "/", "client", 5, []⟩).2.resp.status = 400 ∧
    (Part000.app envAllOk freshLimiter ⟨.get, "/", "client", 5, []⟩).1.hits =
      [("client", 1)] := by decide

/-- Claim C8 (amended): there is no liveness route.  `GET /health` is
unmatched (404), and `GET /` is the part_000 screenshot endpoint: it
passes through the rate limiter — counted against the client's quota —
and parameter validation, so a parameterless `GET /` yields 400, never
a static readiness message. -/
theorem c8_amended_no_liveness_route (env : BrowserEnv) (st : LimiterState)
    (k : String) (t : Nat) (hreset : st.windowEnd ≤ t) :
    (Part000.app env st ⟨.get, "/health", k, t, []⟩).2.resp.status = 404 ∧
    (Part000.app env st ⟨.get, "/", k, t, []⟩).2.resp.status = 400 ∧
    (Part000.app env st ⟨.get, "/", k, t, []⟩).2.shotCalled = false ∧
    lookupHits (Part000.app env st ⟨.get, "/", k, t, []⟩).1.hits k = 1 := by
  have hstep : limiterStep st k t = (⟨t + 60000, setHits [] k 1⟩, true) := by
    simp [limiterStep, hreset, lookupHits]
  have hval : validate ([] : ParamBag) = .error [⟨"url", "\"url\" is required"⟩] := by decide
  refine ⟨?_, ?_, ?_, ?_⟩ <;>
    simp [Part000.app, hstep, Part000.handleGet, notFound, hval, lookupHits_setHits]

/-- Witness for C8 (amended) at the fresh limiter. -/
theorem c8_witness :
    (Part000.app envAllOk freshLimiter ⟨.get, "/health", "c", 7, []⟩).2.resp.status = 404 ∧
    (Part000.app envAllOk freshLimiter ⟨.get, "/", "c", 7, []⟩).2.resp.status = 400 ∧
    (Part000.app envAllOk freshLimiter ⟨.get, "/", "c", 7, []⟩).2.shotCalled = false ∧
    lookupHits (Part000.app envAllOk freshLimiter ⟨.get, "/", "c", 7, []⟩).1.hits "c" = 1 :=
  c8_amended_no_liveness_route envAllOk freshLimiter "c" 7 (by decide)

/-- The PNG signature bytes, a concrete captured buffer. -/
def pngBytes : List Nat := [137, 80, 78, 71, 13, 10, 26, 10]

/-- Engine oracle succeeding with the PNG signature buffer. -/
def envPng : BrowserEnv := ⟨true, true, true, pngBytes⟩

/-- A validated png request. -/
def pngReq : ScreenshotRequest := ⟨"http://example.com/", "png", 1280, 720, false, none⟩

/-- Claim C9 (code-bug evaluation): on a successful capture the body
the handler hands to `res.send` is `buffer.toString('base64')` — the
base64 TEXT of the captured buffer, not its raw bytes.  For the
concrete PNG-signature buffer, the body is the string "iVBORw0KGgo="
whose wire bytes differ from the buffer, while the headers still
declare `Content-Type: image/png` and the Lambda-style
`isBase64Encoded` flag (which Express ignores) is set. -/
theorem c9_body_is_base64_of_buffer :
    (Api.takeScreenshot envPng pngReq).result.body = .b64 (base64Encode pngBytes) ∧
    (Part000.takeScreenshot envPng pngReq).result.body = .b64 (base64Encode pngBytes) ∧
    base64Encode pngBytes = "iVBORw0KGgo=" ∧
    asciiBytes (base64Encode pngBytes) ≠ pngBytes ∧
    (Api.takeScreenshot envPng pngReq).result.isBase64Encoded = true ∧
    (Api.takeScreenshot envPng pngReq).result.headers.lookup "Content-Type" =
      some "image/png" := by decide

/-- Claim C10: for equal parameter bags the GET and POST handlers are
behaviorally identical in both variants — same validation verdict, same
`takeScreenshot` pipeline, same response. -/
theorem c10_get_post_equivalent :
    (∀ (env : BrowserEnv) (bag : ParamBag), Api.handlePost env bag = Api.handleGet env bag) ∧
    (∀ (env : BrowserEnv) (bag : ParamBag),
      Part000.handleGet env bag = Part000.handlePost env bag) :=
  ⟨fun _ _ => rfl, fun _ _ => rfl⟩
